import Mathlib

/-!
Shallow embedding of the DQN training harness in drl_api: the epsilon
scheduler, the replay-memory learn gate, the TD-target computation of
DQN_Model.learn, the eval/target network bookkeeping, and the agent's
evaluation/checkpoint logic, together with theorems settling the
specification claims about them.  Rewards, scores and epsilon values are
embedded as rationals; network parameters as an abstract type P.
-/

namespace DrlApi

/-- Epsilon scheduler state: class _eps in src/drl_api/models/base_dqn.py
(fields eps, min_eps, decay). -/
structure Eps where
  eps : ℚ
  min_eps : ℚ
  decay : ℚ

/-- Method _eps.get_eps (base_dqn.py lines 185-188):
`self.eps = max(self.min_eps, self.eps - self.decay); return self.eps`.
State-passing translation: the pair is the value the Python method returns
together with the scheduler state after the call. -/
def Eps.get_eps (s : Eps) : ℚ × Eps :=
  (max s.min_eps (s.eps - s.decay), { s with eps := max s.min_eps (s.eps - s.decay) })

/-- Method _eps.get_eps_no_decay (base_dqn.py lines 191-192):
`return self.eps`, no assignment to self. -/
def Eps.get_eps_no_decay (s : Eps) : ℚ × Eps :=
  (s.eps, s)

/-- Method _eps.get_min_eps (base_dqn.py lines 195-196):
`return self.min_eps`, no assignment to self. -/
def Eps.get_min_eps (s : Eps) : ℚ × Eps :=
  (s.min_eps, s)

/-- Scheduler state after n successive get_eps calls. -/
def Eps.stateAfter (s : Eps) : ℕ → Eps
  | 0 => s
  | n + 1 => ((s.stateAfter n).get_eps).2

/-- Value returned by the (n+1)-th successive get_eps call. -/
def Eps.ret (s : Eps) (n : ℕ) : ℚ :=
  ((s.stateAfter n).get_eps).1

/-- Modelled from the spec: class ReplayMemory (module drl_api/memory is not
among the source files, only its callers are).  Per the spec it holds a
fixed capacity and a monotonically increasing write counter. -/
structure ReplayMemory where
  capacity : ℕ
  counter : ℕ

/-- Modelled from the spec: push writes at `counter mod capacity` and
increments the counter unconditionally. -/
def ReplayMemory.push (m : ReplayMemory) : ReplayMemory :=
  { m with counter := m.counter + 1 }

/-- Modelled from the spec: `size()` returns min(counter, capacity). -/
def ReplayMemory.size (m : ReplayMemory) : ℕ :=
  min m.counter m.capacity

/-- DQN_Model.get_counter (base_dqn.py lines 102-103): returns the replay
memory's raw counter, not its size. -/
def get_counter (m : ReplayMemory) : ℕ :=
  m.counter

/-- Learn gate of DQN_agent.train_step (dqn_agent.py line 60):
`self.model.get_counter() > self.batch_size and
 self.agent_step % self.learn_frequency == 0`. -/
def learnGate (m : ReplayMemory) (batch_size agent_step learn_frequency : ℕ) : Bool :=
  decide (batch_size < get_counter m) && decide (agent_step % learn_frequency = 0)

/-- Per-sample slice of the batch tensors used by DQN_Model.learn: reward,
terminal flag, and the target network's row of action values for the next
state (row of Q_target.forward(next_state)). -/
structure Sample where
  reward : ℚ
  terminal : Bool
  qNextRow : List ℚ

instance : Inhabited Sample :=
  ⟨⟨0, false, []⟩⟩

/-- torch.max(q_next, dim=1)[0] restricted to one row: the maximum entry of
the row. -/
def rowMax : List ℚ → ℚ
  | [] => 0
  | x :: xs => xs.foldl max x

/-- Bootstrap target computed by DQN_Model.learn for one batch sample
(base_dqn.py lines 73-75): `q_next[batch_dict[terminal]] = 0.0` zeroes the
whole action-value row of terminal samples, then
`q_target = reward + gamma * torch.max(q_next, dim=1)[0]`. -/
def q_target_of (gamma : ℚ) (s : Sample) : ℚ :=
  s.reward + gamma * rowMax (if s.terminal then s.qNextRow.map (fun _ => (0 : ℚ)) else s.qNextRow)

/-- The batch of bootstrap targets computed by DQN_Model.learn. -/
def learnTargets (gamma : ℚ) (batch : List Sample) : List ℚ :=
  batch.map (q_target_of gamma)

/-- Name argument of the _DQN constructor: the only argument in which the
two networks built by init_networks differ. -/
inductive NetName
  | eval
  | target

/-- Parameter snapshots of the two networks owned by DQN_Model.  P stands
for the parameter space of the network backend (the contents of a
state_dict). -/
structure DQNState (P : Type) where
  qEval : P
  qTarget : P

/-- DQN_Model.replace_target_network (base_dqn.py lines 88-89):
`self.Q_target.load_state_dict(self.Q_eval.state_dict())`. -/
def replace_target_network {P : Type} (s : DQNState P) : DQNState P :=
  { s with qTarget := s.qEval }

/-- DQN_Model.learn (base_dqn.py lines 60-78) viewed on network parameters:
the optimizer is constructed over Q_eval.parameters() only, so the
backward/optimizer step of the backend, abstracted as `step` (it may read
both networks through the loss), rewrites Q_eval and touches nothing
else. -/
def learn {P : Type} (step : P → P → P) (s : DQNState P) : DQNState P :=
  { s with qEval := step s.qEval s.qTarget }

/-- DQN_Model.init_networks (base_dqn.py lines 44-58): builds Q_eval and
Q_target by the same _DQN constructor with the same in_dims, n_actions, lr
and nntype arguments, differing only in the name, applies Xavier
initialization (initW) to Q_eval only, then calls replace_target_network. -/
def init_networks {P : Type} (newNet : NetName → P) (initW : P → P) : DQNState P :=
  replace_target_network
    { qEval := initW (newNet NetName.eval), qTarget := newNet NetName.target }

/-- DQN_Model.load_save (base_dqn.py lines 92-94): loads the checkpoint
contents p into Q_eval and into Q_target. -/
def load_save {P : Type} (p : P) (_s : DQNState P) : DQNState P :=
  { qEval := p, qTarget := p }

/-- Initial value of DQN_agent.max_avg_score (dqn_agent.py line 33). -/
def max_avg_score_init : ℚ := 0

/-- Decision of DQN_agent.eval_step (dqn_agent.py lines 83-86): given the
mean score of the rounds and the current record, returns the new record
together with whether the eval network was saved. -/
def eval_step (avg_score max_avg_score : ℚ) : ℚ × Bool :=
  if max_avg_score < avg_score then (avg_score, true) else (max_avg_score, false)

/-- Saved-flags of a run of successive eval_step calls threading the
best-score record. -/
def evalFlags : ℚ → List ℚ → List Bool
  | _, [] => []
  | best, a :: rest => (eval_step a best).2 :: evalFlags (eval_step a best).1 rest

/-- Saved-flags of a whole run, starting from the initial record. -/
def runFlags (scores : List ℚ) : List Bool :=
  evalFlags max_avg_score_init scores

/-! Helper lemmas. -/

theorem stateAfter_min_eps (s : Eps) (n : ℕ) : (s.stateAfter n).min_eps = s.min_eps := by
  induction n with
  | zero => rfl
  | succ n ih => simp [Eps.stateAfter, Eps.get_eps, ih]

theorem stateAfter_decay (s : Eps) (n : ℕ) : (s.stateAfter n).decay = s.decay := by
  induction n with
  | zero => rfl
  | succ n ih => simp [Eps.stateAfter, Eps.get_eps, ih]

theorem ret_succ (s : Eps) (n : ℕ) :
    s.ret (n + 1) = max s.min_eps (s.ret n - s.decay) := by
  have h1 : (s.stateAfter (n + 1)).eps = s.ret n := rfl
  show max (s.stateAfter (n + 1)).min_eps
      ((s.stateAfter (n + 1)).eps - (s.stateAfter (n + 1)).decay)
    = max s.min_eps (s.ret n - s.decay)
  rw [stateAfter_min_eps, stateAfter_decay, h1]

theorem min_le_ret (s : Eps) (n : ℕ) : s.min_eps ≤ s.ret n := by
  have h : s.ret n = max (s.stateAfter n).min_eps
      ((s.stateAfter n).eps - (s.stateAfter n).decay) := rfl
  rw [h, stateAfter_min_eps]
  exact le_max_left _ _

/-! Claim theorems. -/

/-- C2 (counterexample): the claim that get_eps returns the epsilon value
held before the call is false: with eps = 1, min_eps = 0, decay = 1 the
call returns 0, not the pre-call value 1. -/
theorem C2_counterexample :
    (Eps.get_eps (Eps.mk 1 0 1)).1 ≠ (Eps.mk 1 0 1).eps := by
  norm_num [Eps.get_eps]

/-- C2 (amended): get_eps first sets the stored epsilon to
max(min_epsilon, epsilon - decay_step) and then returns the updated value
(not the pre-call one); min_epsilon and the decay step are unchanged. -/
theorem C2_decay_then_return (s : Eps) :
    (s.get_eps).2.eps = max s.min_eps (s.eps - s.decay)
    ∧ (s.get_eps).1 = (s.get_eps).2.eps
    ∧ (s.get_eps).2.min_eps = s.min_eps
    ∧ (s.get_eps).2.decay = s.decay :=
  ⟨rfl, rfl, rfl, rfl⟩

/-- C9: get_eps_no_decay and get_min_eps return the current epsilon and the
floor respectively and leave the scheduler state completely unchanged. -/
theorem C9_queries_pure (s : Eps) :
    s.get_eps_no_decay = (s.eps, s) ∧ s.get_min_eps = (s.min_eps, s) :=
  ⟨rfl, rfl⟩

/-- C4: for successive get_eps calls with a nonnegative decay step, the
returned sequence is non-increasing, every returned value is at least
min_epsilon, and once a returned value equals the floor every further call
returns exactly min_epsilon. -/
theorem C4_monotone_decay (s : Eps) (hd : 0 ≤ s.decay) :
    (∀ n, s.ret (n + 1) ≤ s.ret n)
    ∧ (∀ n, s.min_eps ≤ s.ret n)
    ∧ (∀ n k, s.ret n = s.min_eps → s.ret (n + k) = s.min_eps) := by
  refine ⟨fun n => ?_, fun n => min_le_ret s n, fun n k h => ?_⟩
  · rw [ret_succ]
    exact max_le (min_le_ret s n) (sub_le_self _ hd)
  · induction k with
    | zero => simpa using h
    | succ k ih =>
      rw [Nat.add_succ, ret_succ, ih, max_eq_left (sub_le_self _ hd)]

/-- C4 witness at a concrete scheduler. -/
theorem C4_witness :
    (0 : ℚ) ≤ (Eps.mk 1 (1/10) (1/10)).decay
    ∧ (Eps.mk 1 (1/10) (1/10)).ret 1 ≤ (Eps.mk 1 (1/10) (1/10)).ret 0 :=
  ⟨by norm_num, (C4_monotone_decay (Eps.mk 1 (1/10) (1/10)) (by norm_num)).1 0⟩

/-- C1 (counterexample): the gate of train_step checks the raw counter, not
size(): with capacity 10, counter 33, batch_size 32, agent_step 0 and
learn_frequency 4 the gate fires although size() = 10 is not above 32. -/
theorem C1_counterexample :
    learnGate (ReplayMemory.mk 10 33) 32 0 4 = true
    ∧ ¬ (32 < (ReplayMemory.mk 10 33).size) := by
  decide

/-- C1 (amended): whenever the train_step gate fires, the raw counter
exceeds batch_size; provided the capacity also exceeds batch_size, this
guarantees size() = min(counter, capacity) > batch_size. -/
theorem C1_gate_amended (m : ReplayMemory) (batch_size agent_step learn_frequency : ℕ)
    (h : learnGate m batch_size agent_step learn_frequency = true) :
    batch_size < get_counter m
    ∧ (batch_size < m.capacity → batch_size < m.size) := by
  rw [learnGate, Bool.and_eq_true, decide_eq_true_iff, decide_eq_true_iff] at h
  exact ⟨h.1, fun hc => lt_min h.1 hc⟩

/-- C1 witness at a concrete configuration. -/
theorem C1_witness :
    learnGate (ReplayMemory.mk 100 33) 32 0 4 = true
    ∧ (32 < get_counter (ReplayMemory.mk 100 33)
        ∧ (32 < (ReplayMemory.mk 100 33).capacity
            → 32 < (ReplayMemory.mk 100 33).size)) :=
  ⟨by decide, C1_gate_amended (ReplayMemory.mk 100 33) 32 0 4 (by decide)⟩

theorem foldl_max_replicate_zero (n : ℕ) :
    ((List.replicate n (0 : ℚ)).foldl max 0) = 0 := by
  induction n with
  | zero => rfl
  | succ n ih => simpa [List.replicate, max_self] using ih

theorem rowMax_replicate_zero (n : ℕ) :
    rowMax (List.replicate n (0 : ℚ)) = 0 := by
  cases n with
  | zero => rfl
  | succ n => simpa [List.replicate, rowMax] using foldl_max_replicate_zero n

theorem rowMax_map_zero (l : List ℚ) :
    rowMax (l.map fun _ => (0 : ℚ)) = 0 := by
  simpa [List.map_const] using rowMax_replicate_zero l.length

theorem q_target_of_terminal (gamma : ℚ) (s : Sample) (ht : s.terminal = true) :
    q_target_of gamma s = s.reward := by
  simp [q_target_of, ht, rowMax_replicate_zero]

theorem getD_map_q_target (gamma : ℚ) (l : List Sample) :
    ∀ i, i < l.length →
      (l.map (q_target_of gamma)).getD i 0 = q_target_of gamma (l.getD i default) := by
  induction l with
  | nil => intro i hi; simp at hi
  | cons a rest ih =>
    intro i hi
    cases i with
    | zero => rfl
    | succ i =>
      have hi2 : i < rest.length := by simpa using hi
      simpa [List.getD] using ih i hi2

/-- C3: in the batch of bootstrap targets computed by learn, every sample
whose terminal flag is true gets a target equal to its reward alone,
whatever the target network output for its next state. -/
theorem C3_terminal_bootstrap (gamma : ℚ) (batch : List Sample) (i : ℕ)
    (hi : i < batch.length)
    (ht : (batch.getD i default).terminal = true) :
    (learnTargets gamma batch).getD i 0 = (batch.getD i default).reward := by
  rw [learnTargets, getD_map_q_target gamma batch i hi,
    q_target_of_terminal gamma _ ht]

/-- C3 witness: one terminal sample with reward 5 and nonzero target-net
action values 3 and 7: the computed target is 5. -/
theorem C3_witness :
    0 < ([Sample.mk 5 true [3, 7]] : List Sample).length
    ∧ (([Sample.mk 5 true [3, 7]] : List Sample).getD 0 default).terminal = true
    ∧ (learnTargets (1/2) [Sample.mk 5 true [3, 7]]).getD 0 0
        = (([Sample.mk 5 true [3, 7]] : List Sample).getD 0 default).reward :=
  ⟨by decide, rfl, C3_terminal_bootstrap (1/2) [Sample.mk 5 true [3, 7]] 0 (by decide) rfl⟩

/-- C5: after replace_target_network the target parameters equal the eval
parameters, and any learn call rewrites only the eval parameters, leaving
the target parameters of any model state unchanged. -/
theorem C5_sync_and_learn_frame {P : Type} (step : P → P → P) (s : DQNState P) :
    (replace_target_network s).qTarget = (replace_target_network s).qEval
    ∧ (∀ t : DQNState P, (learn step t).qTarget = t.qTarget)
    ∧ (∀ t : DQNState P, (learn step t).qEval = step t.qEval t.qTarget) :=
  ⟨rfl, fun _ => rfl, fun _ => rfl⟩

/-- C6: after init_networks the target network's parameters equal the eval
network's parameters (both the Xavier-initialized eval snapshot). -/
theorem C6_init_synchronizes {P : Type} (newNet : NetName → P) (initW : P → P) :
    (init_networks newNet initW).qTarget = (init_networks newNet initW).qEval
    ∧ (init_networks newNet initW).qEval = initW (newNet NetName.eval) :=
  ⟨rfl, rfl⟩

/-- C7: after load_save both networks hold the loaded checkpoint
parameters, so the target again equals the eval network. -/
theorem C7_load_restores_sync {P : Type} (p : P) (s : DQNState P) :
    (load_save p s).qEval = p ∧ (load_save p s).qTarget = p :=
  ⟨rfl, rfl⟩

/-- C8: eval_step saves exactly when the mean score strictly exceeds the
record, in which case the record becomes the mean score; otherwise the
record is unchanged and nothing is saved. -/
theorem C8_checkpoint_iff_best (avg_score max_avg_score : ℚ) :
    ((eval_step avg_score max_avg_score).2 = true ↔ max_avg_score < avg_score)
    ∧ (eval_step avg_score max_avg_score).1
        = (if max_avg_score < avg_score then avg_score else max_avg_score) := by
  by_cases h : max_avg_score < avg_score <;> simp [eval_step, h]

theorem evalFlags_no_save (scores : List ℚ) :
    ∀ best : ℚ, 0 ≤ best → ∀ i, i < scores.length → scores.getD i 1 ≤ 0 →
      (evalFlags best scores).getD i true = false := by
  induction scores with
  | nil => intro best _ i hi; simp at hi
  | cons a rest ih =>
    intro best hb i hi hs
    cases i with
    | zero =>
      have ha : a ≤ 0 := by simpa [List.getD] using hs
      have hna : ¬ best < a := not_lt.mpr (ha.trans hb)
      simp [evalFlags, eval_step, hna, List.getD]
    | succ i =>
      have hb2 : 0 ≤ (eval_step a best).1 := by
        by_cases h : best < a
        · simpa [eval_step, h] using hb.trans h.le
        · simpa [eval_step, h] using hb
      have hi2 : i < rest.length := by simpa using hi
      have hs2 : rest.getD i 1 ≤ 0 := by simpa [List.getD] using hs
      simpa [evalFlags, List.getD] using ih (eval_step a best).1 hb2 i hi2 hs2

/-- C10: the best-score record starts at 0, so in any run every evaluation
whose mean score is at most 0 saves nothing and leaves the record
unchanged, even when it is the only (or best) evaluation of the run. -/
theorem C10_zero_init_blocks_saves :
    max_avg_score_init = 0
    ∧ ∀ (scores : List ℚ) (i : ℕ), i < scores.length → scores.getD i 1 ≤ 0 →
        (runFlags scores).getD i true = false :=
  ⟨rfl, fun scores i hi hs =>
    evalFlags_no_save scores max_avg_score_init (by norm_num [max_avg_score_init]) i hi hs⟩

/-- C10 witness: a run whose single evaluation scores -1 saves nothing. -/
theorem C10_witness :
    max_avg_score_init = 0
    ∧ 0 < ([(-1 : ℚ)] : List ℚ).length
    ∧ ([(-1 : ℚ)] : List ℚ).getD 0 1 ≤ 0
    ∧ (runFlags [(-1 : ℚ)]).getD 0 true = false :=
  ⟨C10_zero_init_blocks_saves.1, by decide, by norm_num [List.getD],
    C10_zero_init_blocks_saves.2 [(-1 : ℚ)] 0 (by decide) (by norm_num [List.getD])⟩

end DrlApi
